import Mathlib

/-!
Verification of the `optimistic` GORM plugin (optimistic concurrency control).

This file gives a shallow embedding of the update-rewriting state machine in
`src/optimistic.go` (and the sentinel-guarded rewriter in `src/version.go`),
and proves or refutes the frozen claims about it.

Modelling conventions:
* Go machine integers are `Nat` with an explicit `% 2^64` where overflow matters.
* `reflect` values are the inductive `GoVal`; a failed Go type assertion or a
  `reflect.Value.Uint` call on a non-unsigned kind is a panic, modelled by
  functions returning `Option` (`none` = panic).
* The per-statement scratch map (`InstanceSet`/`InstanceGet`) is modelled by
  explicit `Option GoVal` fields on the statement state.
* Database access (reload by primary key, retry updates, generated UUID/ULID
  values, `NowFunc`) is modelled by explicit parameters.
-/

/-- The subset of `reflect.Kind` the plugin inspects. -/
inductive GoKind where
  | kInt | kInt8 | kInt16 | kInt32 | kInt64
  | kUInt | kUInt8 | kUInt16 | kUInt32 | kUInt64
  | kStruct | kString | kBool | kArray | kSlice | kInvalid
  deriving DecidableEq, Repr

/-- `isNumericKind` from optimistic.go: signed and unsigned integer kinds. -/
def isNumericKind (k : GoKind) : Bool :=
  match k with
  | .kInt | .kInt8 | .kInt16 | .kInt32 | .kInt64
  | .kUInt | .kUInt8 | .kUInt16 | .kUInt32 | .kUInt64 => true
  | _ => false

/-- The unsigned kinds, for which `reflect.Value.Uint` is legal. -/
def isUnsignedKind (k : GoKind) : Bool :=
  match k with
  | .kUInt | .kUInt8 | .kUInt16 | .kUInt32 | .kUInt64 => true
  | _ => false

/-- A Go struct-field type as the plugin observes it: its reflect kind,
whether `[16]byte` is assignable to it (`ty16Byte.AssignableTo`), whether it
is exactly `time.Time`, and its type name (used for the "ulid" substring
match). -/
structure GoType where
  kind : GoKind
  assignableTo16Byte : Bool
  isTimeTime : Bool
  name : String
  deriving DecidableEq, Repr

/-- Runtime values flowing through the plugin (`any` in Go).
`vExpr` is `clause.Expr` (SQL text plus column vars); `vTime` carries the
`UnixNano` reading of a `time.Time`; `vUUID`/`vULID` carry the 16 bytes. -/
inductive GoVal where
  | vNil
  | vUInt (n : Nat)
  | vInt (n : Int)
  | vStr (s : String)
  | vBool (b : Bool)
  | vUUID (b : List Nat)
  | vULID (b : List Nat)
  | vTime (unixNano : Int)
  | vExpr (sql : String) (vars : List String)
  deriving DecidableEq, Repr

/-- Go `IsZero` on the values above (gorm's `ValueOf` second result). -/
def goIsZero (v : GoVal) : Bool :=
  match v with
  | .vNil => true
  | .vUInt n => n == 0
  | .vInt n => n == 0
  | .vStr s => s == ""
  | .vBool b => !b
  | .vUUID b => b.all (· == 0)
  | .vULID b => b.all (· == 0)
  | .vTime t => t == 0
  | .vExpr _ _ => false

/-- `reflect.Value.Uint`: legal only on unsigned-kind values; on anything
else Go panics (`none`). -/
def rvUint (v : GoVal) : Option Nat :=
  match v with
  | .vUInt n => some n
  | _ => none

/-- Errors on a statement's error chain.  `optimisticLock` is the
`ErrOptimisticLock` sentinel; `other` covers driver/reload errors. -/
inductive GErr where
  | optimisticLock
  | other (msg : String)
  deriving DecidableEq, Repr

/-- A schema field: struct name, database column name, updatability, primary
key marker, gorm tag settings (uppercase keys), and the Go type. -/
structure SField where
  name : String
  dbName : String
  updatable : Bool
  primaryKey : Bool
  tagSettings : List (String × String)
  fieldType : GoType
  deriving DecidableEq, Repr

/-- A parsed model schema (the field list, in declaration order). -/
structure Schema where
  fields : List SField
  deriving DecidableEq, Repr

def primaryFields (sch : Schema) : List SField :=
  sch.fields.filter (·.primaryKey)

/-- gorm's `PrioritizedPrimaryField`, modelled as the first primary field. -/
def prioritizedPrimaryField (sch : Schema) : Option SField :=
  (primaryFields sch).head?

/-- gorm's `Schema.LookUpField`: by database name first, then by struct
field name. -/
def lookUpField (sch : Schema) (name : String) : Option SField :=
  match sch.fields.find? (fun f => f.dbName == name) with
  | some f => some f
  | none => sch.fields.find? (fun f => f.name == name)

/-- An in-memory model instance: struct field name to value. -/
abbrev GoModel := List (String × GoVal)

/-- Read a struct field (`Field.ReflectValueOf` on a live instance);
a missing entry is an invalid reflect value. -/
def modelGet? (m : GoModel) (name : String) : Option GoVal :=
  m.lookup name

def modelGet (m : GoModel) (name : String) : GoVal :=
  (modelGet? m name).getD .vNil

/-- `Field.ValueOf`: the field value together with its is-zero flag. -/
def fieldValueOf (m : GoModel) (f : SField) : GoVal × Bool :=
  let v := modelGet m f.name
  (v, goIsZero v)

/-- Write a struct field (`Field.Set`). -/
def modelSet (m : GoModel) (name : String) (v : GoVal) : GoModel :=
  if (m.lookup name).isSome then
    m.map (fun p => if p.1 == name then (p.1, v) else p)
  else m ++ [(name, v)]

/-- `Statement.Dest`: a struct, an ordered sequence of structs, a
column-to-value map, or something else. -/
inductive Dest where
  | dStruct (m : GoModel)
  | dSlice (ms : List GoModel)
  | dMap (kv : List (String × GoVal))
  | dOther

/-- `Statement.ReflectValue` after pointer dereferencing. -/
inductive RVal where
  | rStruct (m : GoModel)
  | rSlice (ms : List GoModel)
  | rInvalid

/-- The model underlying a struct reflect value (`ValueOf` receivers). -/
def rvModel (rv : RVal) : GoModel :=
  match rv with
  | .rStruct m => m
  | _ => []

/-- One `clause.Assignment` of the SET clause. -/
structure Assignment where
  column : String
  value : GoVal
  deriving DecidableEq, Repr

/-- A WHERE expression: `clause.Eq` on a named column, or anything else. -/
inductive WExpr where
  | eqE (column : String) (value : GoVal)
  | raw (text : String)
  deriving DecidableEq, Repr

/-- A `{from,to}` pair of the diff reporter. -/
structure Change where
  fromVal : GoVal
  toVal : GoVal
  deriving DecidableEq, Repr

/-- The environment's generated values: a fresh UUID, a fresh ULID and the
`NowFunc` reading for one hook invocation. -/
structure Gen where
  uuid : List Nat
  ulid : List Nat
  now : Int

/-- The statement state the plugin reads and writes.  `setClause`,
`whereClause`, `returning`, `lockingEnabled` and `conflict` model the entries
of `stmt.Clauses`; `selectCols`/`restrict` model the result of
`SelectAndOmitColumns`; `fromVersion`/`toVersion`/`contextKeyVal` model the
per-statement scratch; `ns` is the dialect naming strategy and `quote` the
dialect quoter. -/
structure Stmt where
  dryRun : Bool
  unscoped : Bool
  schema : Option Schema
  dest : Dest
  reflectValue : RVal
  modelObj : GoModel
  setClause : Option (List Assignment)
  whereClause : Option (List WExpr)
  returning : Bool
  lockingEnabled : Bool
  conflict : Option (GoModel → List (String × Change) → Option GoModel)
  selectCols : List (String × Bool)
  restrict : Bool
  omits : List String
  fromVersion : Option GoVal
  toVersion : Option GoVal
  contextKeyVal : Option GoVal
  errs : List GErr
  rowsAffected : Nat
  ns : String → String
  quote : String → String

/-- `db.AddError(ErrOptimisticLock)`: the conflict signal joins the chain. -/
def addError (s : Stmt) : Stmt :=
  { s with errs := s.errs ++ [GErr.optimisticLock] }

/-- `errors.Is(db.Error, ErrOptimisticLock)`. -/
def conflictRaised (s : Stmt) : Bool :=
  s.errs.contains GErr.optimisticLock

/-- `strings.EqualFold` (ASCII model). -/
def equalFold (a b : String) : Bool :=
  a.toLower == b.toLower

/-- `strings.Contains`. -/
def hasSub (s pat : String) : Bool :=
  (s.splitOn pat).length != 1

/-- `Plugin.findVersionField`: the first schema field whose tag settings
contain the configured (uppercased) tag keyword; `nil` schema gives none.
The field's type is not inspected here. -/
def findVersionField (tagName : String) (sch? : Option Schema) : Option SField :=
  match sch? with
  | none => none
  | some sch => sch.fields.find? (fun f => (f.tagSettings.lookup tagName).isSome)

/-- `Plugin.paramIs`: case-insensitive match of the tag value. -/
def paramIs (tagName : String) (f : SField) (p : String) : Bool :=
  equalFold ((f.tagSettings.lookup tagName).getD "") p

/-- `isTargetedModelUpdate` from optimistic.go: a struct with a non-zero
prioritized primary key, or any non-empty slice. -/
def isTargetedModelUpdate (s : Stmt) : Bool :=
  match s.schema with
  | none => false
  | some sch =>
    match s.reflectValue with
    | .rInvalid => false
    | .rStruct m =>
      match prioritizedPrimaryField sch with
      | none => false
      | some pk => !(fieldValueOf m pk).2
    | .rSlice ms => !ms.isEmpty

/-- `eqColumnName` from optimistic.go: the column name of a `clause.Eq`,
passed through the statement's naming strategy. -/
def eqColumnName (s : Stmt) (e : WExpr) : Option String :=
  match e with
  | .eqE c _ => some (s.ns c)
  | .raw _ => none

/-- The select-column lookup of `Plugin.collectAssignments`: the Go code
first copies every entry of the `SelectAndOmitColumns` map under its
naming-strategy-normalized key (later writes win), then looks up. -/
def selLookup (ns : String → String) (sc : List (String × Bool)) (k : String) : Bool :=
  match ((sc.map (fun p => (ns p.1, p.2))) ++ sc).lookup k with
  | some b => b
  | none => false

/-- `Plugin.collectAssignments`: the assignment set the plugin computes from
a map destination (schema-validated, version column excluded) or from the
struct fields (skip primary keys, the version column, non-updatable fields,
and — unless selected — zero values). -/
def collectAssignments (sch : Schema) (s : Stmt) (f : SField) : List Assignment :=
  match s.dest with
  | .dMap kv =>
    kv.filterMap (fun p =>
      let name := s.ns p.1
      if name == f.dbName then none
      else
        match lookUpField sch name with
        | none => none
        | some sf =>
          if sf.dbName == "" || !sf.updatable then none
          else some ⟨name, p.2⟩)
  | _ =>
    sch.fields.filterMap (fun sf =>
      if sf.dbName == "" || !sf.updatable then none
      else
        let name := s.ns sf.dbName
        if sf.primaryKey || name == f.dbName || !sf.updatable then none
        else
          let sel := selLookup s.ns s.selectCols name
          let vz := fieldValueOf (rvModel s.reflectValue) sf
          if s.restrict then
            if !sel then none else some ⟨sf.dbName, vz.1⟩
          else
            if vz.2 && !sel then none else some ⟨sf.dbName, vz.1⟩)

/-- `Plugin.bumpVersion`: append the version-bump assignment and return the
recorded to-version (`InstanceSet` of the to-version key); for an
unrecognized version type nothing is appended and nothing recorded. -/
def bumpVersion (tagName : String) (gen : Gen) (s : Stmt) (f : SField)
    (set : List Assignment) : List Assignment × Option GoVal :=
  if !isTargetedModelUpdate s then (set, none)
  else
    let ft := f.fieldType
    let name := s.ns f.dbName
    if isNumericKind ft.kind then
      let v := GoVal.vExpr "? + 1" [name]
      (set ++ [⟨name, v⟩], some v)
    else if ft.assignableTo16Byte then
      if paramIs tagName f "ulid" || hasSub ft.name.toLower "ulid" then
        (set ++ [⟨name, .vULID gen.ulid⟩], some (.vULID gen.ulid))
      else
        (set ++ [⟨name, .vUUID gen.uuid⟩], some (.vUUID gen.uuid))
    else if ft.isTimeTime then
      (set ++ [⟨name, .vTime gen.now⟩], some (.vTime gen.now))
    else (set, none)

/-- `Plugin.injectWhereVersion`: add equality predicates for each primary
key not already present (detected by naming-strategy-normalized column
name), always add the version equality, and merge into the WHERE clause
(gorm's `Where.MergeClause` appends); request RETURNING when supported. -/
def injectWhereVersion (sch : Schema) (s : Stmt) (f : SField) (oldVal : GoVal)
    (supportsReturning : Bool) : Stmt :=
  if !isTargetedModelUpdate s then s
  else
    let existing := s.whereClause.getD []
    let missing := (primaryFields sch).filterMap (fun pf =>
      let pfName := s.ns pf.dbName
      let hasPK := existing.any (fun e =>
        match eqColumnName s e with
        | some n => n == pfName
        | none => false)
      if hasPK then none
      else some (WExpr.eqE pf.dbName (fieldValueOf (rvModel s.reflectValue) pf).1))
    let additions := missing ++ [WExpr.eqE f.dbName oldVal]
    { s with whereClause := some (existing ++ additions),
             returning := s.returning || supportsReturning }

/-- `Plugin.modifyUpdate`: the before-update hook.  Skip dry-run, unscoped,
non-targeted or un-versioned statements; stash the observed version; build
or merge the SET clause; inject the WHERE predicates and RETURNING.

In the merge branch the Go code reads a copy of the stored clause
(`c, ok := stmt.Clauses[...]`), appends the bump to the copied slice and
assigns it to `c.Expression` without writing `c` back to the map; so only
the `InstanceSet` of the to-version survives and the stored SET clause is
unchanged. -/
def modifyUpdate (tagName : String) (gen : Gen) (supportsReturning : Bool)
    (s : Stmt) : Stmt :=
  if s.dryRun || s.unscoped then s
  else if !isTargetedModelUpdate s then s
  else
    match s.schema, findVersionField tagName s.schema with
    | some sch, some f =>
      let oldVal := (fieldValueOf (rvModel s.reflectValue) f).1
      let s1 := { s with fromVersion := some oldVal }
      match s1.setClause with
      | some set =>
        let bumped := bumpVersion tagName gen s1 f set
        let s2 := { s1 with toVersion :=
          match bumped.2 with
          | some v => some v
          | none => s1.toVersion }
        injectWhereVersion sch s2 f oldVal supportsReturning
      | none =>
        let set := collectAssignments sch s1 f
        if set.isEmpty then { s1 with omits := s1.omits ++ [f.dbName] }
        else
          let bumped := bumpVersion tagName gen s1 f set
          let s2 := { s1 with setClause := some bumped.1,
                              toVersion :=
            match bumped.2 with
            | some v => some v
            | none => s1.toVersion }
          injectWhereVersion sch s2 f oldVal supportsReturning
    | _, _ => s

/-- `versionMatches` from optimistic.go: dispatch on the recorded
to-version.  The numeric branch asserts `oldAny`/`newAny` to `uint64`
(panic = `none`, Go uint64 addition wraps mod `2^64`); the time branch
compares `UnixNano`; UUID/ULID compare bytes; anything else falls back to
`reflect.DeepEqual`. -/
def versionMatches (oldAny toAny newAny : GoVal) : Option Bool :=
  match toAny with
  | .vExpr _ _ =>
    match oldAny, newAny with
    | .vUInt o, .vUInt n => some (n == (o + 1) % 2 ^ 64)
    | _, _ => none
  | .vTime t =>
    match newAny with
    | .vTime n => some (n == t)
    | _ => none
  | .vUUID b =>
    match newAny with
    | .vUUID nb => some (nb == b)
    | _ => none
  | .vULID b =>
    match newAny with
    | .vULID nb => some (nb == b)
    | _ => none
  | _ => some (newAny == toAny)

/-- `Plugin.verifyUpdate`: the after-update hook.  `reload` is the result of
the no-RETURNING fallback's fresh single-row load (`none` = load error). -/
def verifyUpdate (tagName : String) (supportsReturning : Bool)
    (reload : Option GoModel) (s : Stmt) : Option Stmt :=
  if s.dryRun || s.unscoped then some s
  else if !isTargetedModelUpdate s then some s
  else
    match findVersionField tagName s.schema with
    | none => some s
    | some f =>
      let oldAny := s.fromVersion.getD .vNil
      if s.rowsAffected == 0 then
        if s.toVersion.isNone then some s
        else some (addError s)
      else if supportsReturning then
        let newAny := (fieldValueOf (rvModel s.reflectValue) f).1
        match versionMatches oldAny (s.toVersion.getD .vNil) newAny with
        | none => none
        | some b => some (if b then s else addError s)
      else
        match reload with
        | none => some { s with errs := s.errs ++ [GErr.other "reload failed"] }
        | some current => some { s with modelObj := current }

/-- `Plugin.setInitialVersion`: seed one model instance.  gorm's field
setter converts `uint64(1)` to the field's own integer kind. -/
def setInitialVersion (tagName : String) (gen : Gen) (f : SField)
    (m : GoModel) : GoModel :=
  let ft := f.fieldType
  if isNumericKind ft.kind then
    modelSet m f.name (if isUnsignedKind ft.kind then .vUInt 1 else .vInt 1)
  else if ft.assignableTo16Byte then
    if paramIs tagName f "ulid" || hasSub ft.name.toLower "ulid" then
      modelSet m f.name (.vULID gen.ulid)
    else
      modelSet m f.name (.vUUID gen.uuid)
  else if ft.isTimeTime then
    modelSet m f.name (.vTime gen.now)
  else m

/-- `Plugin.initializeVersion`: the before-create hook seeds every
destination instance. -/
def initializeVersion (tagName : String) (gen : Gen) (s : Stmt) : Stmt :=
  if s.dryRun || s.unscoped then s
  else
    match findVersionField tagName s.schema with
    | none => s
    | some f =>
      match s.dest with
      | .dStruct m => { s with dest := .dStruct (setInitialVersion tagName gen f m) }
      | .dSlice ms => { s with dest := .dSlice (ms.map (setInitialVersion tagName gen f)) }
      | _ => s

/-- `Plugin.checkInitialVersionField` on one instance (`none` = invalid
value): zero values and unrecognized types raise the conflict signal; the
numeric branch calls `reflect.Value.Uint`, which panics (`none` result) on
signed integer kinds. -/
def checkInitialVersionField (v : Option GoModel) (f : SField) (s : Stmt) :
    Option Stmt :=
  if s.dryRun || s.unscoped then some s
  else
    match v with
    | none => some (addError s)
    | some m =>
      let ft := f.fieldType
      match modelGet? m f.name with
      | none => some (addError s)
      | some rv =>
        if goIsZero rv then some (addError s)
        else if isNumericKind ft.kind then
          match rvUint rv with
          | some n => some (if n != 1 then addError s else s)
          | none => none
        else if ft.assignableTo16Byte then some s
        else if ft.isTimeTime then some s
        else some (addError s)

/-- `Plugin.verifyCreate`: the after-create hook verifies every destination
instance. -/
def verifyCreate (tagName : String) (s : Stmt) : Option Stmt :=
  if s.dryRun || s.unscoped then some s
  else
    match findVersionField tagName s.schema with
    | none => some s
    | some f =>
      match s.dest with
      | .dStruct m => checkInitialVersionField (some m) f s
      | .dSlice ms =>
        ms.foldlM (fun st m => checkInitialVersionField (some m) f st) s
      | _ => some s

/-- The diff-reporter output between the attempted value and the fresh row:
a field-keyed map of `{from,to}` pairs at every differing leaf. -/
def diffModels (a b : GoModel) : List (String × Change) :=
  ((a ++ b).map Prod.fst).eraseDups.filterMap (fun k =>
    let x := modelGet a k
    let y := modelGet b k
    if x == y then none else some (k, ⟨x, y⟩))

/-- `Plugin.resolveConflict`: runs only when the conflict signal is present
and a `Conflict` clause is attached.  `reload` is the fresh hook-skipping
load of the current row (`none` = load error: keep the original conflict);
`retryErrs`/`retryRows` are the outcome of the retry branch's fresh
`Updates` call. -/
def resolveConflict (reload : Option GoModel) (retryErrs : List GErr)
    (retryRows : Nat) (s : Stmt) : Stmt :=
  if s.dryRun || s.unscoped then s
  else if !conflictRaised s then s
  else
    match s.conflict with
    | none => s
    | some handler =>
      match reload with
      | none => s
      | some current =>
        let d := diffModels (rvModel s.reflectValue) current
        match handler current d with
        | none => { s with rowsAffected := 0 }
        | some resolved =>
          if resolved == current then
            { s with rowsAffected := 0, modelObj := current }
          else
            { s with errs := retryErrs, rowsAffected := retryRows,
                     modelObj := resolved }

/-- `eqColumnName` from version.go: raw column names, no naming strategy. -/
def eqColumnNameV (e : WExpr) : Option String :=
  match e with
  | .eqE c _ => some c
  | .raw _ => none

/-- The SET-building loop of `VersionUpdateClause.ModifyStatement`
(version.go): a map destination contributes every non-version entry without
schema validation; a struct destination contributes every non-primary,
non-version, updatable field, with the zero-unless-selected rule and no
naming-strategy normalization of the select set. -/
def VersionUpdateClause.buildSet (sch : Schema) (s : Stmt)
    (versionField : SField) : List Assignment :=
  match s.dest with
  | .dMap kv =>
    kv.filterMap (fun p =>
      let name := s.ns p.1
      if name == versionField.dbName then none else some ⟨name, p.2⟩)
  | _ =>
    sch.fields.filterMap (fun f =>
      if f.primaryKey || f.dbName == versionField.dbName || !f.updatable then none
      else
        let sel := (s.selectCols.lookup f.dbName).getD false
        let vz := fieldValueOf (rvModel s.reflectValue) f
        if s.restrict then
          if !sel then none else some ⟨f.dbName, vz.1⟩
        else
          if vz.2 && !sel then none else some ⟨f.dbName, vz.1⟩)

/-- The WHERE/RETURNING/sentinel phase of
`VersionUpdateClause.ModifyStatement` (version.go).  It runs when there is
no custom WHERE clause or the update is targeted.  The observed version is
read off the model and asserted to the `Version` type (`none` = panic);
only the first primary field is considered (the Go loop breaks); with no
primary field `PrimaryFields[0]` panics.  The built expression list already
contains the existing WHERE expressions, and gorm's `Where.MergeClause`
appends it to them again. -/
def VersionUpdateClause.wherePhase (supportsReturning : Bool) (sch : Schema)
    (versionField : SField) (s : Stmt) : Option Stmt :=
  if s.whereClause.isNone || isTargetedModelUpdate s then
    let existing := s.whereClause.getD []
    match (fieldValueOf (rvModel s.reflectValue) versionField).1 with
    | .vUInt ov =>
      let s1 := { s with contextKeyVal := some (.vUInt ov) }
      let verEq := WExpr.eqE versionField.dbName (.vUInt ov)
      match prioritizedPrimaryField sch with
      | none => none
      | some pf =>
        let pkVal := (fieldValueOf (rvModel s1.reflectValue) pf).1
        let hasPK := existing.any (fun e =>
          match eqColumnNameV e with
          | some n => n == pf.dbName
          | none => false)
        let whereExprs :=
          if hasPK then existing ++ [verEq]
          else existing ++ [WExpr.eqE pf.dbName pkVal, verEq]
        let merged :=
          match s1.whereClause with
          | some ex => ex ++ whereExprs
          | none => whereExprs
        some { s1 with whereClause := some merged,
                       returning := s1.returning || supportsReturning,
                       lockingEnabled := true }
    | _ => none
  else some s

/-- `VersionUpdateClause.ModifyStatement` (version.go): the sentinel-guarded
rewriter.  Skips dry-run/unscoped statements; returns immediately when the
`OPTIMISTIC_LOCKING_ENABLED` sentinel clause is present; a `nil` schema
panics on `LookUpField`.  In the custom-SET branch the Go code appends the
bump to a copied clause value that is never written back to `stmt.Clauses`,
so the stored SET clause is unchanged there. -/
def VersionUpdateClause.ModifyStatement (supportsReturning : Bool)
    (vField : SField) (s : Stmt) : Option Stmt :=
  if s.dryRun || s.unscoped then some s
  else if s.lockingEnabled then some s
  else
    match s.schema with
    | none => none
    | some sch =>
      match lookUpField sch vField.name with
      | none => some s
      | some versionField =>
        match s.setClause with
        | none =>
          let set := VersionUpdateClause.buildSet sch s versionField
          if set.isEmpty then some s
          else
            let bump : Assignment :=
              ⟨versionField.dbName,
               .vExpr (s.quote versionField.dbName ++ " + 1") []⟩
            VersionUpdateClause.wherePhase supportsReturning sch versionField
              { s with setClause := some (set ++ [bump]) }
        | some _ =>
          VersionUpdateClause.wherePhase supportsReturning sch versionField s

/-- Following the spec's words (§4.3 precondition 3 / claim C2): the update
is targeted when the submitted model has a non-zero primary key, or is a
non-empty ordered sequence of models each of which has a non-zero primary
key. -/
def targetedSpec (s : Stmt) : Bool :=
  match s.schema with
  | none => false
  | some sch =>
    match prioritizedPrimaryField sch with
    | none => false
    | some pk =>
      match s.reflectValue with
      | .rStruct m => !(fieldValueOf m pk).2
      | .rSlice ms => !ms.isEmpty && ms.all (fun m => !(fieldValueOf m pk).2)
      | .rInvalid => false

/-! ### Concrete fixtures (models, schemas, statements used by witnesses) -/

/-- The configured tag keyword, uppercased by `Plugin.Initialize`. -/
def tagV : String := "VERSION"

def idF : SField := ⟨"ID", "id", true, true, [], ⟨.kUInt64, false, false, "uint64"⟩⟩

def descF : SField := ⟨"Description", "description", true, false, [], ⟨.kString, false, false, "string"⟩⟩

/-- An unsigned-integer version field tagged `version`. -/
def verF : SField := ⟨"Version", "version", true, false, [("VERSION", "")], ⟨.kUInt64, false, false, "uint64"⟩⟩

/-- A tagged version field whose Go type is `string` (unrecognized). -/
def fS : SField := ⟨"Version", "version", true, false, [("VERSION", "")], ⟨.kString, false, false, "string"⟩⟩

/-- A tagged version field whose Go type is the signed `int64`. -/
def fI : SField := ⟨"Version", "version", true, false, [("VERSION", "")], ⟨.kInt64, false, false, "int64"⟩⟩

def schU : Schema := ⟨[idF, descF, verF]⟩

def schS : Schema := ⟨[idF, descF, fS]⟩

def schI : Schema := ⟨[idF, fI]⟩

/-- A schema with no version field at all. -/
def schN : Schema := ⟨[idF, descF]⟩

def m1 : GoModel := [("ID", .vUInt 1), ("Description", .vStr "x"), ("Version", .vUInt 1)]

def m2 : GoModel := [("ID", .vUInt 1), ("Description", .vStr "x"), ("Version", .vUInt 2)]

/-- Non-version fields at their zero values (and unselected). -/
def mZ : GoModel := [("ID", .vUInt 2), ("Description", .vStr ""), ("Version", .vUInt 3)]

def mS : GoModel := [("ID", .vUInt 1), ("Description", .vStr "y"), ("Version", .vStr "abc")]

def mI0 : GoModel := [("ID", .vUInt 1), ("Version", .vInt 0)]

/-- `mI0` after the Seeder wrote the initial value. -/
def mI1 : GoModel := [("ID", .vUInt 1), ("Version", .vInt 1)]

def mCur : GoModel := [("ID", .vUInt 1), ("Description", .vStr "bar"), ("Version", .vUInt 2)]

def mRes : GoModel := [("ID", .vUInt 1), ("Description", .vStr "baz"), ("Version", .vUInt 2)]

/-- A plain statement over a given schema and destination, with the
identity naming strategy and quoter. -/
def mkStmt (sch : Schema) (rv : RVal) (dest : Dest) : Stmt where
  dryRun := false
  unscoped := false
  schema := some sch
  dest := dest
  reflectValue := rv
  modelObj := []
  setClause := none
  whereClause := none
  returning := false
  lockingEnabled := false
  conflict := none
  selectCols := []
  restrict := false
  omits := []
  fromVersion := none
  toVersion := none
  contextKeyVal := none
  errs := []
  rowsAffected := 0
  ns := fun x => x
  quote := fun x => x

def g0 : Gen := ⟨List.replicate 16 7, List.replicate 16 9, 1000⟩

/-- A targeted struct update on the unsigned-versioned model. -/
def sC1 : Stmt := mkStmt schU (.rStruct m1) (.dStruct m1)

/-- `sC1` with the version.go sentinel clause already present. -/
def sLock : Stmt := { sC1 with lockingEnabled := true }

/-- A non-empty slice destination whose single element has a zero primary key. -/
def sC2 : Stmt := mkStmt schU (.rSlice [[("ID", .vUInt 0)]]) (.dSlice [[("ID", .vUInt 0)]])

/-- A struct update with a zero primary key (not targeted). -/
def sC2w : Stmt := mkStmt schU (.rStruct [("ID", .vUInt 0)]) (.dStruct [("ID", .vUInt 0)])

/-- A targeted update whose non-version fields are all zero and unselected. -/
def sC3 : Stmt := mkStmt schU (.rStruct mZ) (.dStruct mZ)

/-- The symbolic numeric bump expression over the `version` column. -/
def exprBump : GoVal := .vExpr "? + 1" ["version"]

/-- Post-execution state: zero rows affected, to-version recorded. -/
def sC4 : Stmt :=
  { mkStmt schU (.rStruct m1) (.dStruct m1) with
      fromVersion := some (.vUInt 1), toVersion := some exprBump }

/-- Post-execution state on the RETURNING path: one row affected, the model
now carries the bumped version. -/
def sC5 : Stmt :=
  { mkStmt schU (.rStruct m2) (.dStruct m2) with
      fromVersion := some (.vUInt 1), toVersion := some exprBump,
      rowsAffected := 1 }

/-- A targeted update on the string-versioned (unrecognized type) model. -/
def sC6 : Stmt := mkStmt schS (.rStruct mS) (.dStruct mS)

def handlerNone : GoModel → List (String × Change) → Option GoModel :=
  fun _ _ => none

def handlerCur : GoModel → List (String × Change) → Option GoModel :=
  fun cur _ => some cur

def handlerRes : GoModel → List (String × Change) → Option GoModel :=
  fun _ _ => some mRes

/-- A failed update with the conflict signal raised and a cancelling handler. -/
def sC7a : Stmt :=
  { mkStmt schU (.rStruct m1) (.dStruct m1) with
      errs := [GErr.optimisticLock], conflict := some handlerNone,
      rowsAffected := 3 }

/-- As `sC7a` but the handler accepts the current row. -/
def sC7b : Stmt := { sC7a with conflict := some handlerCur }

/-- A dry-run statement. -/
def sDry : Stmt := { sC1 with dryRun := true }

/-- A statement over the un-versioned schema. -/
def sNoV : Stmt := mkStmt schN (.rStruct [("ID", .vUInt 1), ("Description", .vStr "x")]) (.dStruct [("ID", .vUInt 1), ("Description", .vStr "x")])

/-- The signed-int model statement (post-create verification input). -/
def sC9 : Stmt := mkStmt schI (.rStruct mI1) (.dStruct mI1)

/-- A conflicted statement with a handler returning a merged object. -/
def sC10 : Stmt := { sC7a with conflict := some handlerRes }

/-! ### Helper lemmas -/

/-- `collectAssignments` does not read the scratch fields. -/
theorem collectAssignments_fromVersion (sch : Schema) (s : Stmt) (f : SField)
    (v : Option GoVal) :
    collectAssignments sch { s with fromVersion := v } f
      = collectAssignments sch s f := by
  cases s; rfl

/-! ### Claims -/

/-- C1 (counterexample): `Plugin.modifyUpdate` has no sentinel clause and is
not idempotent per statement: on a second entry into the before-update hook
on the statement produced by the first entry, a duplicate WHERE equality
predicate on the version column is appended (here `version = 1` appears
twice). -/
theorem c1_counterexample :
    ((modifyUpdate tagV g0 true sC1).whereClause.getD []).count
        (WExpr.eqE "version" (.vUInt 1)) = 1
    ∧ ((modifyUpdate tagV g0 true (modifyUpdate tagV g0 true sC1)).whereClause.getD []).count
        (WExpr.eqE "version" (.vUInt 1)) = 2 := by
  exact ⟨rfl, rfl⟩

/-- C1 (amended): the sentinel-based idempotence holds for the rewriter in
version.go: whenever the `OPTIMISTIC_LOCKING_ENABLED` sentinel clause is
present on the statement, `VersionUpdateClause.ModifyStatement` returns
without modifying the statement; `Plugin.modifyUpdate` in optimistic.go has
no such sentinel and appends a duplicate WHERE version predicate on
re-entry. -/
theorem c1_sentinel_idempotent (supportsReturning : Bool) (vField : SField)
    (s : Stmt) (h : s.lockingEnabled = true) :
    VersionUpdateClause.ModifyStatement supportsReturning vField s = some s := by
  unfold VersionUpdateClause.ModifyStatement
  by_cases hd : (s.dryRun || s.unscoped) = true <;> simp [hd, h]

theorem c1_witness :
    VersionUpdateClause.ModifyStatement true verF sLock = some sLock :=
  c1_sentinel_idempotent true verF sLock rfl

/-- C2 (counterexample): a non-empty slice destination whose only element
has a zero primary key is treated as targeted by the code, although the
spec's characterization (each element has a non-zero primary key) says it
is not. -/
theorem c2_counterexample :
    isTargetedModelUpdate sC2 = true ∧ targetedSpec sC2 = false :=
  ⟨rfl, rfl⟩

/-- C2 (amended): an update is treated as targeted if the submitted model
has a non-zero primary key, or the destination is any non-empty ordered
sequence — the primary keys of sequence elements are not inspected (every
spec-targeted update is code-targeted, but not conversely); for every
update that is not targeted, `Plugin.modifyUpdate` returns the statement
unchanged. -/
theorem c2_targeted_amended (tagName : String) (gen : Gen)
    (supportsReturning : Bool) (s : Stmt) :
    (targetedSpec s = true → isTargetedModelUpdate s = true)
    ∧ (∀ ms, s.reflectValue = .rSlice ms →
        isTargetedModelUpdate s = (s.schema.isSome && !ms.isEmpty))
    ∧ (isTargetedModelUpdate s = false →
        modifyUpdate tagName gen supportsReturning s = s) := by
  refine ⟨?_, ?_, ?_⟩
  · intro h
    unfold targetedSpec at h
    unfold isTargetedModelUpdate
    cases hsch : s.schema with
    | none => simp [hsch] at h
    | some sch =>
      simp only [hsch] at h ⊢
      cases hpk : prioritizedPrimaryField sch with
      | none => simp [hpk] at h
      | some pk =>
        simp only [hpk] at h
        cases hrv : s.reflectValue with
        | rStruct m =>
          simp only [hrv] at h
          simp [hpk, h]
        | rSlice ms =>
          simp only [hrv, Bool.and_eq_true] at h
          simp [h.1]
        | rInvalid => simp [hrv] at h
  · intro ms hrv
    unfold isTargetedModelUpdate
    cases hsch : s.schema with
    | none => simp
    | some sch => simp [hrv]
  · intro h
    unfold modifyUpdate
    by_cases hd : (s.dryRun || s.unscoped) = true <;> simp [hd, h]

theorem c2_witness :
    isTargetedModelUpdate sC1 = true
    ∧ modifyUpdate tagV g0 true sC2w = sC2w :=
  ⟨(c2_targeted_amended tagV g0 true sC1).1 rfl,
   (c2_targeted_amended tagV g0 true sC2w).2.2 rfl⟩

/-- C3: for a targeted, versioned struct-form update whose computed
assignment set over non-version columns is empty, `Plugin.modifyUpdate`
contributes nothing to the statement: no SET clause (hence no version-bump
assignment and no change to the persisted version), no recorded to-version,
no WHERE injection, and no error. -/
theorem c3_empty_assignment_guard (tagName : String) (gen : Gen)
    (supportsReturning : Bool) (s : Stmt) (sch : Schema) (f : SField)
    (hd : s.dryRun = false) (hu : s.unscoped = false)
    (ht : isTargetedModelUpdate s = true)
    (hsch : s.schema = some sch)
    (hf : findVersionField tagName s.schema = some f)
    (hset : s.setClause = none)
    (hcol : collectAssignments sch s f = []) :
    (modifyUpdate tagName gen supportsReturning s).setClause = none
    ∧ (modifyUpdate tagName gen supportsReturning s).toVersion = s.toVersion
    ∧ (modifyUpdate tagName gen supportsReturning s).whereClause = s.whereClause
    ∧ (modifyUpdate tagName gen supportsReturning s).errs = s.errs := by
  obtain ⟨dr, un, osch, dest, rv, mo, setc, wc, ret, lock, conf, selc, restr, om, fv, tv, ck, er, ra, nsf, qt⟩ := s
  replace hd : dr = false := hd
  replace hu : un = false := hu
  replace hsch : osch = some sch := hsch
  replace hset : setc = none := hset
  subst hd hu hsch hset
  replace hf : findVersionField tagName (some sch) = some f := hf
  unfold modifyUpdate
  simp only [ht, hf, Bool.or_self, Bool.not_true, if_false, Bool.false_eq_true]
  have hcol2 : collectAssignments sch ⟨false, false, some sch, dest, rv, mo, none, wc, ret, lock, conf, selc, restr, om, some (fieldValueOf (rvModel rv) f).1, tv, ck, er, ra, nsf, qt⟩ f = [] := hcol
  simp [hcol2]

theorem c3_witness :
    (modifyUpdate tagV g0 true sC3).setClause = none
    ∧ (modifyUpdate tagV g0 true sC3).toVersion = sC3.toVersion
    ∧ (modifyUpdate tagV g0 true sC3).whereClause = sC3.whereClause
    ∧ (modifyUpdate tagV g0 true sC3).errs = sC3.errs :=
  c3_empty_assignment_guard tagV g0 true sC3 schU verF rfl rfl rfl rfl rfl rfl rfl

/-- C4: after a targeted, versioned update with zero affected rows,
`Plugin.verifyUpdate` adds the conflict signal exactly when a to-version was
recorded by the rewriter, and returns the statement unchanged when none
was. -/
theorem c4_zero_rows_conflict (tagName : String) (supportsReturning : Bool)
    (reload : Option GoModel) (s : Stmt) (f : SField)
    (hd : s.dryRun = false) (hu : s.unscoped = false)
    (ht : isTargetedModelUpdate s = true)
    (hf : findVersionField tagName s.schema = some f)
    (hr : s.rowsAffected = 0) :
    verifyUpdate tagName supportsReturning reload s
      = some (if s.toVersion.isSome then addError s else s) := by
  unfold verifyUpdate
  simp only [hd, hu, ht, hf, hr, Bool.or_false, Bool.not_true,
    Bool.false_eq_true, if_false]
  cases s.toVersion <;> simp

theorem c4_witness :
    verifyUpdate tagV true none sC4
      = some (if sC4.toVersion.isSome then addError sC4 else sC4) :=
  c4_zero_rows_conflict tagV true none sC4 verF rfl rfl rfl rfl rfl

/-- C5: on the RETURNING path with more than zero affected rows,
`Plugin.verifyUpdate` compares the version now on the in-memory model
against the expected next version via `versionMatches` — for integer
versions the observed version plus one, for UUID/ULID versions byte
equality with the generated value, for timestamp versions equality of
unix-nanoseconds — and adds the conflict signal exactly on mismatch. -/
theorem c5_returning_comparison (tagName : String) (reload : Option GoModel)
    (s : Stmt) (f : SField) (b : Bool)
    (hd : s.dryRun = false) (hu : s.unscoped = false)
    (ht : isTargetedModelUpdate s = true)
    (hf : findVersionField tagName s.schema = some f)
    (hr : s.rowsAffected ≠ 0)
    (hm : versionMatches (s.fromVersion.getD .vNil) (s.toVersion.getD .vNil)
            (fieldValueOf (rvModel s.reflectValue) f).1 = some b) :
    verifyUpdate tagName true reload s = some (if b then s else addError s)
    ∧ (∀ o n sql vars, o + 1 < 2 ^ 64 →
        (versionMatches (.vUInt o) (.vExpr sql vars) (.vUInt n) = some true ↔ n = o + 1))
    ∧ (∀ x bs nbs, versionMatches x (.vUUID bs) (.vUUID nbs) = some (nbs == bs))
    ∧ (∀ x bs nbs, versionMatches x (.vULID bs) (.vULID nbs) = some (nbs == bs))
    ∧ (∀ x t nt, versionMatches x (.vTime t) (.vTime nt) = some (nt == t)) := by
  refine ⟨?_, ?_, ?_, ?_, ?_⟩
  · unfold verifyUpdate
    have hr2 : (s.rowsAffected == 0) = false := by simpa using hr
    simp only [hd, hu, ht, hf, hr2, hm, Bool.or_self, Bool.not_true, if_false,
      Bool.false_eq_true, if_true]
  · intro o n sql vars hlt
    have hv : versionMatches (.vUInt o) (.vExpr sql vars) (.vUInt n)
        = some (n == (o + 1) % 2 ^ 64) := rfl
    rw [hv, Nat.mod_eq_of_lt hlt]
    simp
  · intro x bs nbs; cases x <;> rfl
  · intro x bs nbs; cases x <;> rfl
  · intro x t nt; cases x <;> rfl

theorem c5_witness :
    verifyUpdate tagV true none sC5 = some (if true then sC5 else addError sC5) :=
  (c5_returning_comparison tagV none sC5 verF true rfl rfl rfl rfl
    (by decide) rfl).1

/-- C6 (counterexample): for a tag-marked version field of unrecognized
type (`string`), the model is not treated as un-versioned: post-create
verification raises the conflict signal, and the update rewriter still
appends the version equality predicate to the WHERE clause. -/
theorem c6_counterexample :
    checkInitialVersionField (some mS) fS sC6 = some (addError sC6)
    ∧ conflictRaised (addError sC6) = true
    ∧ ((modifyUpdate tagV g0 true sC6).whereClause.getD []).contains
        (WExpr.eqE "version" (.vStr "abc")) = true :=
  ⟨rfl, rfl, rfl⟩

/-- C6 (amended): a tag-marked version field of unrecognized type (neither
integer, nor 16-byte-assignable, nor the clock-timestamp type) is still
selected as the version field.  Creates perform no seeding, and updates
append no version-bump assignment and record no to-version; but
post-create verification always raises the conflict signal, and the update
rewriter still appends the WHERE version equality predicate. -/
theorem c6_unrecognized_type_amended (tagName : String) (gen : Gen)
    (f : SField) (s : Stmt) (m : GoModel) (rv : GoVal)
    (hnum : isNumericKind f.fieldType.kind = false)
    (h16 : f.fieldType.assignableTo16Byte = false)
    (htime : f.fieldType.isTimeTime = false) :
    setInitialVersion tagName gen f m = m
    ∧ (∀ set, bumpVersion tagName gen s f set = (set, none))
    ∧ (s.dryRun = false → s.unscoped = false → modelGet? m f.name = some rv →
        checkInitialVersionField (some m) f s = some (addError s))
    ∧ (isTargetedModelUpdate s = true → ∀ sch oldVal supportsReturning,
        WExpr.eqE f.dbName oldVal ∈
          ((injectWhereVersion sch s f oldVal supportsReturning).whereClause.getD [])) := by
  refine ⟨?_, ?_, ?_, ?_⟩
  · unfold setInitialVersion
    simp [hnum, h16, htime]
  · intro set
    unfold bumpVersion
    by_cases hT : isTargetedModelUpdate s = true <;> simp [hT, hnum, h16, htime]
  · intro hd hu hrv
    unfold checkInitialVersionField
    simp only [hd, hu, hrv, Bool.or_self, if_false, Bool.false_eq_true]
    cases hz : goIsZero rv <;> simp [hz, hnum, h16, htime]
  · intro hT sch oldVal supportsReturning
    unfold injectWhereVersion
    simp [hT, List.mem_append]

theorem c6_witness :
    setInitialVersion tagV g0 fS mS = mS
    ∧ bumpVersion tagV g0 sC6 fS [] = ([], none)
    ∧ checkInitialVersionField (some mS) fS { sC6 with rowsAffected := 1 }
        = some (addError { sC6 with rowsAffected := 1 })
    ∧ WExpr.eqE fS.dbName (.vStr "abc") ∈
        ((injectWhereVersion schS sC6 fS (.vStr "abc") true).whereClause.getD []) :=
  ⟨(c6_unrecognized_type_amended tagV g0 fS sC6 mS (.vStr "abc") rfl rfl rfl).1,
   (c6_unrecognized_type_amended tagV g0 fS sC6 mS (.vStr "abc") rfl rfl rfl).2.1 [],
   (c6_unrecognized_type_amended tagV g0 fS { sC6 with rowsAffected := 1 } mS (.vStr "abc") rfl rfl rfl).2.2.1 rfl rfl rfl,
   (c6_unrecognized_type_amended tagV g0 fS sC6 mS (.vStr "abc") rfl rfl rfl).2.2.2 rfl schS (.vStr "abc") true⟩

/-- C7: when the conflict signal is raised and a `Conflict` clause with an
`OnVersionMismatch` handler is attached, `Plugin.resolveConflict`: on a
`nil` handler result, cancels (rows-affected zero, conflict signal left in
place, in-memory model untouched); on a handler result equal to the freshly
loaded current row, sets rows-affected to zero, overwrites the in-memory
model with the fresh row, and leaves the conflict signal. -/
theorem c7_null_and_accept_current (s : Stmt) (current : GoModel)
    (handler : GoModel → List (String × Change) → Option GoModel)
    (retryErrs : List GErr) (retryRows : Nat)
    (hd : s.dryRun = false) (hu : s.unscoped = false)
    (hc : conflictRaised s = true)
    (hh : s.conflict = some handler) :
    (handler current (diffModels (rvModel s.reflectValue) current) = none →
      resolveConflict (some current) retryErrs retryRows s
        = { s with rowsAffected := 0 })
    ∧ (handler current (diffModels (rvModel s.reflectValue) current) = some current →
      resolveConflict (some current) retryErrs retryRows s
        = { s with rowsAffected := 0, modelObj := current }) := by
  constructor
  · intro hres
    unfold resolveConflict
    simp [hd, hu, hc, hh, hres]
  · intro hres
    unfold resolveConflict
    simp [hd, hu, hc, hh, hres]

theorem c7_witness :
    resolveConflict (some mCur) [] 7 sC7a = { sC7a with rowsAffected := 0 }
    ∧ resolveConflict (some mCur) [] 7 sC7b
        = { sC7b with rowsAffected := 0, modelObj := mCur } :=
  ⟨(c7_null_and_accept_current sC7a mCur handlerNone [] 7 rfl rfl rfl rfl).1 rfl,
   (c7_null_and_accept_current sC7b mCur handlerCur [] 7 rfl rfl rfl rfl).2 rfl⟩

/-- C8: no conflict signal is raised (in fact the statement is untouched)
by any of the plugin's hooks for dry-run or unscoped statements, for
non-targeted updates, and for un-versioned models; in particular a dry-run
statement performs no version mutation on the in-memory destination. -/
theorem c8_skip_paths (tagName : String) (gen : Gen)
    (supportsReturning : Bool) (reload : Option GoModel)
    (retryErrs : List GErr) (retryRows : Nat) (s : Stmt) :
    (s.dryRun = true ∨ s.unscoped = true →
      initializeVersion tagName gen s = s
      ∧ verifyCreate tagName s = some s
      ∧ modifyUpdate tagName gen supportsReturning s = s
      ∧ verifyUpdate tagName supportsReturning reload s = some s
      ∧ resolveConflict reload retryErrs retryRows s = s)
    ∧ (isTargetedModelUpdate s = false →
      modifyUpdate tagName gen supportsReturning s = s
      ∧ verifyUpdate tagName supportsReturning reload s = some s)
    ∧ (findVersionField tagName s.schema = none →
      initializeVersion tagName gen s = s
      ∧ verifyCreate tagName s = some s
      ∧ modifyUpdate tagName gen supportsReturning s = s
      ∧ verifyUpdate tagName supportsReturning reload s = some s) := by
  refine ⟨?_, ?_, ?_⟩
  · intro h
    have hds : (s.dryRun || s.unscoped) = true := by
      rcases h with h | h <;> simp [h]
    refine ⟨?_, ?_, ?_, ?_, ?_⟩
    · unfold initializeVersion; simp [hds]
    · unfold verifyCreate; simp [hds]
    · unfold modifyUpdate; simp [hds]
    · unfold verifyUpdate; simp [hds]
    · unfold resolveConflict; simp [hds]
  · intro h
    by_cases hds : (s.dryRun || s.unscoped) = true
    · constructor
      · unfold modifyUpdate; simp [hds]
      · unfold verifyUpdate; simp [hds]
    · constructor
      · unfold modifyUpdate; simp [hds, h]
      · unfold verifyUpdate; simp [hds, h]
  · intro h
    by_cases hds : (s.dryRun || s.unscoped) = true
    · refine ⟨?_, ?_, ?_, ?_⟩
      · unfold initializeVersion; simp [hds]
      · unfold verifyCreate; simp [hds]
      · unfold modifyUpdate; simp [hds]
      · unfold verifyUpdate; simp [hds]
    · refine ⟨?_, ?_, ?_, ?_⟩
      · unfold initializeVersion; simp [hds, h]
      · unfold verifyCreate; simp [hds, h]
      · unfold modifyUpdate
        by_cases hT : isTargetedModelUpdate s = true
        · cases hsch : s.schema with
          | none => simp [hds, hT, hsch]
          | some sch =>
            rw [hsch] at h
            simp [hds, hT, hsch, h]
        · simp [hds, hT]
      · unfold verifyUpdate
        by_cases hT : isTargetedModelUpdate s = true <;> simp [hds, hT, h]

theorem c8_witness :
    modifyUpdate tagV g0 true sDry = sDry
    ∧ verifyUpdate tagV true none sC2w = some sC2w
    ∧ initializeVersion tagV g0 sNoV = sNoV :=
  ⟨((c8_skip_paths tagV g0 true none [] 0 sDry).1 (Or.inl rfl)).2.2.1,
   ((c8_skip_paths tagV g0 true none [] 0 sC2w).2.1 rfl).2,
   ((c8_skip_paths tagV g0 true none [] 0 sNoV).2.2 rfl).1⟩

/-- C9: the claim is right and the code is wrong.  For a version field of a
signed integer type the Seeder does write the initial value 1 (converted to
the field's kind), but `Plugin.checkInitialVersionField` then calls
`reflect.Value.Uint` on the signed field, which panics for every non-zero
value — so post-create verification never completes on the very state the
Seeder produces (modelled by the `none` result). -/
theorem c9_signed_create_verify_panics :
    setInitialVersion tagV g0 fI mI0 = mI1
    ∧ checkInitialVersionField (some mI1) fI sC9 = none
    ∧ checkInitialVersionField (some m1) verF sC1 = some sC1
    ∧ checkInitialVersionField (some m2) verF sC1 = some (addError sC1) :=
  ⟨rfl, rfl, rfl, rfl⟩

/-- C10: in the retry branch of `Plugin.resolveConflict` (handler result
neither `nil` nor equal to the fresh row), the in-memory model is
unconditionally overwritten with the handler-returned object, and the
statement's error and rows-affected are replaced by the retry's error and
rows-affected — also when the retry failed. -/
theorem c10_retry_overwrites (s : Stmt) (current r : GoModel)
    (handler : GoModel → List (String × Change) → Option GoModel)
    (retryErrs : List GErr) (retryRows : Nat)
    (hd : s.dryRun = false) (hu : s.unscoped = false)
    (hc : conflictRaised s = true)
    (hh : s.conflict = some handler)
    (hres : handler current (diffModels (rvModel s.reflectValue) current) = some r)
    (hne : (r == current) = false) :
    resolveConflict (some current) retryErrs retryRows s
      = { s with errs := retryErrs, rowsAffected := retryRows, modelObj := r } := by
  unfold resolveConflict
  simp [hd, hu, hc, hh, hres, hne]

theorem c10_witness :
    resolveConflict (some mCur) [GErr.other "retry failed"] 0 sC10
      = { sC10 with errs := [GErr.other "retry failed"], rowsAffected := 0,
                    modelObj := mRes } :=
  c10_retry_overwrites sC10 mCur mRes handlerRes [GErr.other "retry failed"] 0
    rfl rfl rfl rfl rfl rfl
